import Mathlib

/-!
Verification of `tools/debug_helper/debug-helper-internal.h`.

The header defines the internal, owning versions of the public API structs of
the V8 debug helper.  Each internal class stores its owned data together with
one instance of the corresponding public struct (`public_view_`), which
`GetPublicView` fills from the owned data.

Conventions of the embedding:

* A C++ object is a Lean structure holding *all* of its data members, the
  cached `public_view_` included.  A member function is a function from the
  object state to the new object state (and the value it returns).
* `std::unique_ptr<T>` and `std::vector<T>` are exclusive ownership: an owned
  `T` is held by value and a vector is a `List`.
* A non-owning pointer handed out through a view (`c_str()`, `data()`,
  `&public_view_`) is represented by what is read through it at the moment
  the pointer is taken.  For a `const char*` that is a C string: the
  characters up to the first NUL (`c_str`).  The pointer aliases the buffer of
  its owner, so this value describes the pointer only as long as the owner has
  not been assigned since.  `Prepend` assigns `brief_` and thereby invalidates
  the pointer kept in a cached `public_view_`; what a read through an
  invalidated pointer gives is outside the embedding, and no statement below
  reads one.  The one pointer whose identity is used by the header, `this`
  stored in `base`, is an address.
* `uintptr_t` and `size_t` values are natural numbers.  The header performs no
  arithmetic on them; they are only copied between members of the same type.
-/

/-- The C++ type `uintptr_t`: an unsigned integer holding an address. -/
abbrev uintptr_t := Nat

/-- The C++ type `size_t`: an unsigned integer holding a count. -/
abbrev size_t := Nat

namespace d

/-- Modelled from the spec: the enum `d::PropertyKind` is declared in
`debug-helper.h`, which is not part of the sources at hand.  The header names
the constant `kSingle` (a single scalar property); the spec adds the
precise-length array kind and the degraded / unknown-length array kind. -/
inductive PropertyKind where
  | kSingle
  | kArrayOfKnownSize
  | kArrayOfUnknownSize
  deriving DecidableEq, Repr

/-- Modelled from the spec: the enum `d::MemoryAccessResult` is declared in
`debug-helper.h`, which is not part of the sources at hand.  The spec lists
`{Ok, Unavailable (address unreadable), Tagged-but-invalid, ...}`; the open
end of the list is the constructor `kOther`. -/
inductive MemoryAccessResult where
  | kOk
  | kUnavailable
  | kTaggedButInvalid
  | kOther (code : Nat)
  deriving DecidableEq, Repr

/-- Modelled from the spec: the public struct `d::ObjectProperty` is declared
in `debug-helper.h`, which is not part of the sources at hand.  Its six
members are the ones `ObjectProperty::GetPublicView` assigns (lines 45-50):
name / type / decompressed-type strings, an address, an arity and a kind.  A
`const char*` member is held as the C string that is read through it. -/
structure ObjectProperty where
  name : String
  type : String
  decompressed_type : String
  address : uintptr_t
  num_values : size_t
  kind : PropertyKind
  deriving DecidableEq, Repr

/-- Modelled from the spec: the public struct `d::ObjectPropertiesResult` is
declared in `debug-helper.h`, which is not part of the sources at hand.  Its
members are the ones `ObjectPropertiesResult::GetPublicView` assigns (lines
85-93): a type-check verdict, a brief, a type name and a count-and-array pair
of property views.  A `const char*` member is held as the C string that is
read through it.  The enum `d::TypeCheckResult` is declared in the same
missing header and none of its constants is named here, so it is a type
parameter. -/
structure ObjectPropertiesResult (TypeCheckResult : Type) where
  type_check_result : TypeCheckResult
  brief : String
  type : String
  num_properties : size_t
  properties : List ObjectProperty
  deriving DecidableEq, Repr

end d

namespace v8_debug_helper_internal

/-- The call `s.c_str()` of `std::string`: a `const char*` into the buffer
owned by `s`.  The pointer carries no length, so what it designates is the C
string that starts there: the characters of `s` before the first NUL (all of
`s` when it holds none; the buffer ends in a NUL). -/
def c_str (s : String) : String :=
  String.mk (s.data.takeWhile (fun c => c != Char.ofNat 0))

/-- Whether a `std::string` holds a NUL character among its characters. -/
def has_NUL (s : String) : Bool :=
  s.data.any (fun c => c == Char.ofNat 0)

/-- A value that was read from the debuggee memory (lines 25-29). -/
structure Value (TValue : Type) where
  validity : d.MemoryAccessResult
  value : TValue

/-- The class `ObjectProperty` (lines 31-63): six owned members and the cached
public struct. -/
structure ObjectProperty where
  name_ : String
  type_ : String
  decompressed_type_ : String
  address_ : uintptr_t
  num_values_ : size_t
  kind_ : d.PropertyKind
  public_view_ : d.ObjectProperty
  deriving DecidableEq, Repr

/-- The constructor of `ObjectProperty` (lines 33-42).  The member
`public_view_` has no initialiser, so it starts with indeterminate contents:
they are the first argument.  The last two arguments carry the defaults of the
C++ declaration. -/
def ObjectProperty.ctor (indeterminate : d.ObjectProperty)
    (name type decompressed_type : String) (address : uintptr_t)
    (num_values : size_t := 1)
    (kind : d.PropertyKind := d.PropertyKind.kSingle) : ObjectProperty :=
  { name_ := name
    type_ := type
    decompressed_type_ := decompressed_type
    address_ := address
    num_values_ := num_values
    kind_ := kind
    public_view_ := indeterminate }

/-- The member function `ObjectProperty::GetPublicView` (lines 44-52): six
assignments into `public_view_`, then `return &public_view_`.  The result is
the object after the call and the struct the returned pointer points to. -/
def ObjectProperty.GetPublicView (self : ObjectProperty) :
    ObjectProperty × d.ObjectProperty :=
  let pv := self.public_view_
  let pv := { pv with name := c_str self.name_ }
  let pv := { pv with type := c_str self.type_ }
  let pv := { pv with decompressed_type := c_str self.decompressed_type_ }
  let pv := { pv with address := self.address_ }
  let pv := { pv with num_values := self.num_values_ }
  let pv := { pv with kind := self.kind_ }
  let self := { self with public_view_ := pv }
  (self, self.public_view_)

/-- The struct `ObjectPropertiesResultExtended` (lines 68-70): the public
struct plus the back reference `base`, the address of the owning internal
object. -/
structure ObjectPropertiesResultExtended (TypeCheckResult : Type)
    extends d.ObjectPropertiesResult TypeCheckResult where
  base : uintptr_t
  deriving DecidableEq, Repr

/-- The class `ObjectPropertiesResult` (lines 72-106): four owned members,
the cached public struct and the cached array of child view pointers. -/
structure ObjectPropertiesResult (TypeCheckResult : Type) where
  type_check_result_ : TypeCheckResult
  brief_ : String
  type_ : String
  properties_ : List ObjectProperty
  public_view_ : ObjectPropertiesResultExtended TypeCheckResult
  properties_raw_ : List d.ObjectProperty
  deriving DecidableEq, Repr

/-- The constructor of `ObjectPropertiesResult` (lines 74-80).  The member
`public_view_` has no initialiser, so it starts with indeterminate contents
(the first argument); `properties_raw_` is a default-constructed, empty
vector. -/
def ObjectPropertiesResult.ctor {TypeCheckResult : Type}
    (indeterminate : ObjectPropertiesResultExtended TypeCheckResult)
    (type_check_result : TypeCheckResult) (brief type : String)
    (properties : List ObjectProperty) : ObjectPropertiesResult TypeCheckResult :=
  { type_check_result_ := type_check_result
    brief_ := brief
    type_ := type
    properties_ := properties
    public_view_ := indeterminate
    properties_raw_ := [] }

/-- The member function `ObjectPropertiesResult::Prepend` (line 82):
`brief_ = prefix + brief_`.  The argument is the C string the parameter
points to. -/
def ObjectPropertiesResult.Prepend {TypeCheckResult : Type}
    (self : ObjectPropertiesResult TypeCheckResult) (pfx : String) :
    ObjectPropertiesResult TypeCheckResult :=
  { self with brief_ := pfx ++ self.brief_ }

/-- The range-for loop of `ObjectPropertiesResult::GetPublicView` (lines
90-92): every owned property, in order, is asked for its public view (which
refreshes the cache of that property) and the view is pushed to the back of
the array.  The result is the owned properties after the calls and the
array. -/
def ObjectPropertiesResult.GetPublicView.loop :
    List ObjectProperty → List d.ObjectProperty →
    List ObjectProperty × List d.ObjectProperty
  | [], raw => ([], raw)
  | property :: rest, raw =>
    let r := property.GetPublicView
    let s := ObjectPropertiesResult.GetPublicView.loop rest (raw ++ [r.2])
    (r.1 :: s.1, s.2)

/-- The member function `ObjectPropertiesResult::GetPublicView` (lines
84-96).  The implicit argument `this` of the C++ member function is the
address of the object, `self` is the object stored there.  The result is the
object after the call and the struct the returned pointer points to. -/
def ObjectPropertiesResult.GetPublicView {TypeCheckResult : Type}
    (this : uintptr_t) (self : ObjectPropertiesResult TypeCheckResult) :
    ObjectPropertiesResult TypeCheckResult ×
      ObjectPropertiesResultExtended TypeCheckResult :=
  let pv := self.public_view_
  let pv := { pv with type_check_result := self.type_check_result_ }
  let pv := { pv with brief := c_str self.brief_ }
  let pv := { pv with type := c_str self.type_ }
  let pv := { pv with num_properties := self.properties_.length }
  -- properties_raw_.resize(0): a resize that does not grow keeps a prefix
  let raw := self.properties_raw_.take 0
  let s := ObjectPropertiesResult.GetPublicView.loop self.properties_ raw
  -- properties_raw_.data(): the array the pointer points to
  let pv := { pv with properties := s.2 }
  let pv := { pv with base := this }
  let self :=
    { self with properties_ := s.1, properties_raw_ := s.2, public_view_ := pv }
  (self, self.public_view_)

/-- Modelled from the spec: `GetArrayKind` is declared at line 127 and its
body is not part of the sources at hand.  The spec: it "maps a memory-access
outcome (specifically, the outcome of reading an array's length) to the
correct PropertyKind -- success yields the precise-length array kind, failure
yields the degraded/unknown-length kind rather than aborting property
construction".  Success is the outcome `kOk`. -/
def GetArrayKind (mem_result : d.MemoryAccessResult) : d.PropertyKind :=
  match mem_result with
  | d.MemoryAccessResult.kOk => d.PropertyKind.kArrayOfKnownSize
  | _ => d.PropertyKind.kArrayOfUnknownSize

/-- Modelled from the spec: pointer compression is not a function of the
header; the glossary describes it as "encoding a full address as a smaller
offset relative to a known base", and section 4.5 says that "compressed
pointers are offsets within a bounded region".  The region of an address is
the set of addresses with the same high bits; the offset is the low
`region_bits` bits.  The size of the region is a constant of sources that are
not at hand and is the parameter `region_bits`. -/
def Compress (region_bits : Nat) (address : uintptr_t) : uintptr_t :=
  address % 2 ^ region_bits

/-- Modelled from the spec: `Decompress` is declared at line 126 and its body
is not part of the sources at hand.  The spec: it "reconstructs a full address
from a compressed representation using a nearby known-uncompressed address as
context" and "recovers exactly `base`'s high bits combined with `addr`'s low
bits".  The number of low bits is the parameter `region_bits`.  What the
function does with an unusable hint is left open by the spec and is not
represented. -/
def Decompress (region_bits : Nat)
    (address any_uncompressed_address : uintptr_t) : uintptr_t :=
  ((any_uncompressed_address >>> region_bits) <<< region_bits)
    ||| (address &&& (2 ^ region_bits - 1))

/-- The public view of one property as a function of its owned members: what
`ObjectProperty::GetPublicView` is shown to return (`GetPublicView_snd_eq_view`). -/
def ObjectProperty.view (p : ObjectProperty) : d.ObjectProperty :=
  { name := c_str p.name_
    type := c_str p.type_
    decompressed_type := c_str p.decompressed_type_
    address := p.address_
    num_values := p.num_values_
    kind := p.kind_ }

/-! ## Auxiliary lemmas -/

theorem c_str_of_has_NUL_eq_false (s : String) (h : has_NUL s = false) :
    c_str s = s := by
  have hall : ∀ x ∈ s.data, (x != Char.ofNat 0) = true := by
    intro x hx
    have hx' := (List.any_eq_false.mp h) x hx
    simpa [bne] using hx'
  show String.mk (s.data.takeWhile (fun c => c != Char.ofNat 0)) = s
  rw [List.takeWhile_eq_self_iff.mpr hall]

theorem c_str_append (p b : String) (h : has_NUL p = false) :
    c_str (p ++ b) = p ++ c_str b := by
  have hall : ∀ x ∈ p.data, (x != Char.ofNat 0) = true := by
    intro x hx
    have hx' := (List.any_eq_false.mp h) x hx
    simpa [bne] using hx'
  apply String.ext
  show ((p ++ b).data.takeWhile (fun c => c != Char.ofNat 0))
    = (p ++ String.mk (b.data.takeWhile (fun c => c != Char.ofNat 0))).data
  rw [String.data_append, String.data_append,
    List.takeWhile_append_of_pos hall]

theorem ObjectProperty.GetPublicView_snd_eq_view (p : ObjectProperty) :
    p.GetPublicView.2 = p.view := rfl

theorem ObjectProperty.GetPublicView_fst_eq (p : ObjectProperty) :
    p.GetPublicView.1 = { p with public_view_ := p.view } := rfl

theorem ObjectPropertiesResult.GetPublicView.loop_eq (ps : List ObjectProperty)
    (raw : List d.ObjectProperty) :
    ObjectPropertiesResult.GetPublicView.loop ps raw
      = (ps.map (fun p => p.GetPublicView.1),
         raw ++ ps.map (fun p => p.GetPublicView.2)) := by
  induction ps generalizing raw with
  | nil => simp [ObjectPropertiesResult.GetPublicView.loop]
  | cons p ps ih =>
    simp [ObjectPropertiesResult.GetPublicView.loop, ih]

theorem ObjectProperty.view_GetPublicView_fst (p : ObjectProperty) :
    (p.GetPublicView.1).view = p.view := rfl

theorem ObjectProperty.GetPublicView_again (p : ObjectProperty) :
    (p.GetPublicView.1).GetPublicView = p.GetPublicView := rfl

theorem ObjectPropertiesResult.GetPublicView_snd {TypeCheckResult : Type}
    (this : uintptr_t) (r : ObjectPropertiesResult TypeCheckResult) :
    (ObjectPropertiesResult.GetPublicView this r).2
      = { type_check_result := r.type_check_result_
          brief := c_str r.brief_
          type := c_str r.type_
          num_properties := r.properties_.length
          properties := r.properties_.map (fun p => p.GetPublicView.2)
          base := this } := by
  simp [ObjectPropertiesResult.GetPublicView,
    ObjectPropertiesResult.GetPublicView.loop_eq]

theorem ObjectPropertiesResult.GetPublicView_fst {TypeCheckResult : Type}
    (this : uintptr_t) (r : ObjectPropertiesResult TypeCheckResult) :
    (ObjectPropertiesResult.GetPublicView this r).1
      = { r with
          properties_ := r.properties_.map (fun p => p.GetPublicView.1)
          properties_raw_ := r.properties_.map (fun p => p.GetPublicView.2)
          public_view_ := (ObjectPropertiesResult.GetPublicView this r).2 } := by
  simp [ObjectPropertiesResult.GetPublicView,
    ObjectPropertiesResult.GetPublicView.loop_eq]

theorem ObjectPropertiesResult.GetPublicView_idem {TypeCheckResult : Type}
    (this : uintptr_t) (r : ObjectPropertiesResult TypeCheckResult) :
    ObjectPropertiesResult.GetPublicView this
        (ObjectPropertiesResult.GetPublicView this r).1
      = ObjectPropertiesResult.GetPublicView this r := by
  apply Prod.ext
  · rw [ObjectPropertiesResult.GetPublicView_fst this
        (ObjectPropertiesResult.GetPublicView this r).1]
    rw [ObjectPropertiesResult.GetPublicView_snd this
        (ObjectPropertiesResult.GetPublicView this r).1]
    rw [ObjectPropertiesResult.GetPublicView_fst this r,
      ObjectPropertiesResult.GetPublicView_snd this r]
    simp [Function.comp_def, ObjectProperty.GetPublicView_again]
  · rw [ObjectPropertiesResult.GetPublicView_snd this
        (ObjectPropertiesResult.GetPublicView this r).1]
    rw [ObjectPropertiesResult.GetPublicView_fst this r,
      ObjectPropertiesResult.GetPublicView_snd this r]
    simp [Function.comp_def, ObjectProperty.GetPublicView_again]

theorem ObjectPropertiesResult.GetPublicView_iterate {TypeCheckResult : Type}
    (this : uintptr_t) (r : ObjectPropertiesResult TypeCheckResult) (k : Nat) :
    ObjectPropertiesResult.GetPublicView this
        ((fun s => (ObjectPropertiesResult.GetPublicView this s).1)^[k] r)
      = ObjectPropertiesResult.GetPublicView this r := by
  induction k with
  | zero => rfl
  | succ k ih =>
    rw [Function.iterate_succ_apply']
    rw [ObjectPropertiesResult.GetPublicView_idem, ih]

theorem ObjectProperty.GetPublicView_after_calls (p : ObjectProperty) (n : Nat) :
    ((fun q => (ObjectProperty.GetPublicView q).1)^[n] p).GetPublicView
      = p.GetPublicView := by
  induction n with
  | zero => rfl
  | succ n ih =>
    rw [Function.iterate_succ_apply']
    rw [ObjectProperty.GetPublicView_again, ih]

theorem ObjectProperty.view_iterate (p : ObjectProperty) (n : Nat) :
    ((fun q => (ObjectProperty.GetPublicView q).1)^[n] p).view = p.view := by
  rw [← ObjectProperty.GetPublicView_snd_eq_view, ObjectProperty.GetPublicView_after_calls]
  rfl

theorem Decompress_testBit (k : Nat) (addr base : uintptr_t) (i : Nat) :
    (Decompress k addr base).testBit i
      = if i < k then addr.testBit i else base.testBit i := by
  unfold Decompress
  rw [Nat.testBit_or, Nat.testBit_shiftLeft, Nat.testBit_shiftRight,
    Nat.testBit_and, Nat.testBit_two_pow_sub_one]
  by_cases h : i < k
  · simp [h, Nat.not_le.mpr h]
  · have h' : k + (i - k) = i := by omega
    simp [h, Nat.le_of_not_lt h, h']

theorem Decompress_eq_add (k : Nat) (addr base : uintptr_t) :
    Decompress k addr base = base / 2 ^ k * 2 ^ k + addr % 2 ^ k := by
  apply Nat.eq_of_testBit_eq
  intro i
  rw [Decompress_testBit, Nat.mul_comm,
    Nat.testBit_mul_pow_two_add _ (Nat.mod_lt _ (Nat.two_pow_pos k)),
    Nat.testBit_mod_two_pow, ← Nat.shiftRight_eq_div_pow, Nat.testBit_shiftRight]
  by_cases h : i < k
  · simp [h]
  · have h' : k + (i - k) = i := by omega
    simp [h, h']

/-- No wrap-around: with a hint that fits in `w` bits and a region of at most
`w` bits the decompressed address fits in `w` bits. -/
theorem Decompress_lt (w k : Nat) (addr base : uintptr_t) (hk : k ≤ w)
    (hb : base < 2 ^ w) : Decompress k addr base < 2 ^ w := by
  apply Nat.lt_pow_two_of_testBit
  intro i hi
  rw [Decompress_testBit]
  have hik : ¬ i < k := by omega
  simp only [hik, if_false]
  exact Nat.testBit_lt_two_pow
    (lt_of_lt_of_le hb (Nat.pow_le_pow_right (by decide) hi))

theorem ObjectProperty.owned_after_calls (p : ObjectProperty) (n : Nat) :
    ((fun q => (ObjectProperty.GetPublicView q).1)^[n] p).name_ = p.name_
    ∧ ((fun q => (ObjectProperty.GetPublicView q).1)^[n] p).type_ = p.type_
    ∧ ((fun q => (ObjectProperty.GetPublicView q).1)^[n] p).decompressed_type_
      = p.decompressed_type_
    ∧ ((fun q => (ObjectProperty.GetPublicView q).1)^[n] p).address_
      = p.address_
    ∧ ((fun q => (ObjectProperty.GetPublicView q).1)^[n] p).num_values_
      = p.num_values_
    ∧ ((fun q => (ObjectProperty.GetPublicView q).1)^[n] p).kind_ = p.kind_ := by
  induction n with
  | zero => exact ⟨rfl, rfl, rfl, rfl, rfl, rfl⟩
  | succ n ih =>
    rw [Function.iterate_succ_apply']
    exact ih

/-! ## Claims -/

/-- C1: for every result with brief `b` and every prefix `p`, `Prepend(p)`
leaves the result with brief `p ++ b` and every other member
(`type_check_result_`, `type_`, the owned property list, and the two cached
members) unchanged. -/
theorem C1_Prepend_frame {TypeCheckResult : Type}
    (r : ObjectPropertiesResult TypeCheckResult) (p : String) :
    (r.Prepend p).brief_ = p ++ r.brief_
    ∧ (r.Prepend p).type_check_result_ = r.type_check_result_
    ∧ (r.Prepend p).type_ = r.type_
    ∧ (r.Prepend p).properties_ = r.properties_
    ∧ (r.Prepend p).public_view_ = r.public_view_
    ∧ (r.Prepend p).properties_raw_ = r.properties_raw_ :=
  ⟨rfl, rfl, rfl, rfl, rfl, rfl⟩

/-- C2: for every result, two calls of `GetPublicView` in a row return views
with the same `type_check_result`, `brief`, `type` and `num_properties` and
the same sequence of child property views (hence the same count, order and
contents); the two views are equal as a whole, and the second call leaves the
object as the first call left it. -/
theorem C2_GetPublicView_twice {TypeCheckResult : Type} (this : uintptr_t)
    (r : ObjectPropertiesResult TypeCheckResult) :
    (ObjectPropertiesResult.GetPublicView this
        (ObjectPropertiesResult.GetPublicView this r).1).2.type_check_result
      = (ObjectPropertiesResult.GetPublicView this r).2.type_check_result
    ∧ (ObjectPropertiesResult.GetPublicView this
        (ObjectPropertiesResult.GetPublicView this r).1).2.brief
      = (ObjectPropertiesResult.GetPublicView this r).2.brief
    ∧ (ObjectPropertiesResult.GetPublicView this
        (ObjectPropertiesResult.GetPublicView this r).1).2.type
      = (ObjectPropertiesResult.GetPublicView this r).2.type
    ∧ (ObjectPropertiesResult.GetPublicView this
        (ObjectPropertiesResult.GetPublicView this r).1).2.num_properties
      = (ObjectPropertiesResult.GetPublicView this r).2.num_properties
    ∧ (ObjectPropertiesResult.GetPublicView this
        (ObjectPropertiesResult.GetPublicView this r).1).2.properties
      = (ObjectPropertiesResult.GetPublicView this r).2.properties
    ∧ (ObjectPropertiesResult.GetPublicView this
        (ObjectPropertiesResult.GetPublicView this r).1).2
      = (ObjectPropertiesResult.GetPublicView this r).2
    ∧ (ObjectPropertiesResult.GetPublicView this
        (ObjectPropertiesResult.GetPublicView this r).1).1
      = (ObjectPropertiesResult.GetPublicView this r).1 := by
  rw [ObjectPropertiesResult.GetPublicView_idem this r]
  exact ⟨rfl, rfl, rfl, rfl, rfl, rfl, rfl⟩

/-- C3: a result constructed from the property sequence `ps` owns exactly `ps`
in that order, and `GetPublicView` on it yields a view whose `num_properties`
is the length of `ps` and whose `properties` array has that many entries, the
i-th entry being what `ObjectProperty::GetPublicView` returns for the i-th
property. -/
theorem C3_GetPublicView_order {TypeCheckResult : Type} (this : uintptr_t)
    (u : ObjectPropertiesResultExtended TypeCheckResult)
    (tcr : TypeCheckResult) (brief type : String) (ps : List ObjectProperty) :
    (ObjectPropertiesResult.ctor u tcr brief type ps).properties_ = ps
    ∧ (ObjectPropertiesResult.GetPublicView this
        (ObjectPropertiesResult.ctor u tcr brief type ps)).2.num_properties
      = ps.length
    ∧ (ObjectPropertiesResult.GetPublicView this
        (ObjectPropertiesResult.ctor u tcr brief type ps)).2.properties.length
      = ps.length
    ∧ (∀ i : Nat,
        (ObjectPropertiesResult.GetPublicView this
          (ObjectPropertiesResult.ctor u tcr brief type ps)).2.properties[i]?
        = (ps[i]?).map (fun p => p.GetPublicView.2))
    ∧ (ObjectPropertiesResult.GetPublicView this
        (ObjectPropertiesResult.ctor u tcr brief type ps)).2.properties
      = ps.map (fun p => p.GetPublicView.2) := by
  rw [ObjectPropertiesResult.GetPublicView_snd]
  simp [ObjectPropertiesResult.ctor]

/-- C4: for every verdict, brief and type, a result constructed with an empty
property list projects to a view with `num_properties = 0` and an empty
`properties` array. -/
theorem C4_GetPublicView_empty {TypeCheckResult : Type} (this : uintptr_t)
    (u : ObjectPropertiesResultExtended TypeCheckResult)
    (tcr : TypeCheckResult) (brief type : String) :
    (ObjectPropertiesResult.GetPublicView this
        (ObjectPropertiesResult.ctor u tcr brief type [])).2.num_properties = 0
    ∧ (ObjectPropertiesResult.GetPublicView this
        (ObjectPropertiesResult.ctor u tcr brief type [])).2.properties = [] :=
  ⟨rfl, rfl⟩

/-- C5 (amended): the view `GetPublicView` returns for
`ObjectProperty(name, type, decompressed_type, address, num_values, kind)`
carries, whatever `public_view_` held before, the three strings as C strings
(cut at their first NUL) and exactly the address, num_values and kind passed.
For strings that hold no NUL the view carries exactly the six constructor
arguments, and two such constructions with equal views have equal
arguments. -/
theorem C5_ObjectProperty_roundtrip (u u' : d.ObjectProperty)
    (name type decompressed_type : String) (address : uintptr_t)
    (num_values : size_t) (kind : d.PropertyKind)
    (name' type' decompressed_type' : String) (address' : uintptr_t)
    (num_values' : size_t) (kind' : d.PropertyKind) :
    (ObjectProperty.ctor u name type decompressed_type address num_values
        kind).GetPublicView.2
      = { name := c_str name, type := c_str type,
          decompressed_type := c_str decompressed_type,
          address := address, num_values := num_values, kind := kind }
    ∧ (has_NUL name = false → has_NUL type = false →
        has_NUL decompressed_type = false →
        (ObjectProperty.ctor u name type decompressed_type address num_values
          kind).GetPublicView.2
        = { name := name, type := type,
            decompressed_type := decompressed_type,
            address := address, num_values := num_values, kind := kind })
    ∧ (has_NUL name = false → has_NUL type = false →
        has_NUL decompressed_type = false →
        has_NUL name' = false → has_NUL type' = false →
        has_NUL decompressed_type' = false →
        (ObjectProperty.ctor u name type decompressed_type address num_values
          kind).GetPublicView.2
        = (ObjectProperty.ctor u' name' type' decompressed_type' address'
            num_values' kind').GetPublicView.2
        → name = name' ∧ type = type' ∧ decompressed_type = decompressed_type'
          ∧ address = address' ∧ num_values = num_values' ∧ kind = kind') := by
  refine ⟨rfl, fun hn ht hd => ?_, fun hn ht hd hn' ht' hd' h => ?_⟩
  · show ({ name := c_str name, type := c_str type,
            decompressed_type := c_str decompressed_type,
            address := address, num_values := num_values, kind := kind } :
          d.ObjectProperty) = _
    rw [c_str_of_has_NUL_eq_false name hn, c_str_of_has_NUL_eq_false type ht,
      c_str_of_has_NUL_eq_false decompressed_type hd]
  · have h' : (⟨c_str name, c_str type, c_str decompressed_type, address,
        num_values, kind⟩ : d.ObjectProperty)
        = ⟨c_str name', c_str type', c_str decompressed_type', address',
            num_values', kind'⟩ := h
    rw [c_str_of_has_NUL_eq_false name hn, c_str_of_has_NUL_eq_false type ht,
      c_str_of_has_NUL_eq_false decompressed_type hd,
      c_str_of_has_NUL_eq_false name' hn', c_str_of_has_NUL_eq_false type' ht',
      c_str_of_has_NUL_eq_false decompressed_type' hd'] at h'
    injection h' with h1 h2 h3 h4 h5 h6
    exact ⟨h1, h2, h3, h4, h5, h6⟩

/-- Witness of C5 at two properties constructed from the same NUL-free
arguments over different indeterminate contents of `public_view_`. -/
theorem C5_ObjectProperty_roundtrip_witness :
    (has_NUL "map" = false ∧ has_NUL "v8::internal::TaggedValue" = false
      ∧ has_NUL "v8::internal::Map" = false)
    ∧ (ObjectProperty.ctor ⟨"", "", "", 0, 0, d.PropertyKind.kSingle⟩
        "map" "v8::internal::TaggedValue" "v8::internal::Map" 4096 1
        d.PropertyKind.kSingle).GetPublicView.2
      = { name := "map", type := "v8::internal::TaggedValue",
          decompressed_type := "v8::internal::Map", address := 4096,
          num_values := 1, kind := d.PropertyKind.kSingle }
    ∧ ("map" = "map" ∧ "v8::internal::TaggedValue" = "v8::internal::TaggedValue"
        ∧ "v8::internal::Map" = "v8::internal::Map"
        ∧ 4096 = 4096 ∧ 1 = 1
        ∧ d.PropertyKind.kSingle = d.PropertyKind.kSingle) :=
  ⟨⟨by decide, by decide, by decide⟩,
   (C5_ObjectProperty_roundtrip ⟨"", "", "", 0, 0, d.PropertyKind.kSingle⟩
      ⟨"x", "y", "z", 7, 9, d.PropertyKind.kArrayOfKnownSize⟩
      "map" "v8::internal::TaggedValue" "v8::internal::Map" 4096 1
      d.PropertyKind.kSingle
      "map" "v8::internal::TaggedValue" "v8::internal::Map" 4096 1
      d.PropertyKind.kSingle).2.1 (by decide) (by decide) (by decide),
   (C5_ObjectProperty_roundtrip ⟨"", "", "", 0, 0, d.PropertyKind.kSingle⟩
      ⟨"x", "y", "z", 7, 9, d.PropertyKind.kArrayOfKnownSize⟩
      "map" "v8::internal::TaggedValue" "v8::internal::Map" 4096 1
      d.PropertyKind.kSingle
      "map" "v8::internal::TaggedValue" "v8::internal::Map" 4096 1
      d.PropertyKind.kSingle).2.2 (by decide) (by decide) (by decide)
      (by decide) (by decide) (by decide) (by decide)⟩

/-- Counterexample to C5 as stated: with the name `a NUL b` the view shows the
name `a`, not the constructor argument, and the constructions with the names
`a NUL b` and `a NUL c` (all other arguments equal) have the same view. -/
theorem C5_counterexample_embedded_NUL :
    (ObjectProperty.ctor ⟨"", "", "", 0, 0, d.PropertyKind.kSingle⟩
        (String.mk ['a', Char.ofNat 0, 'b']) "T" "D" 4096 1
        d.PropertyKind.kSingle).GetPublicView.2.name = "a"
    ∧ (ObjectProperty.ctor ⟨"", "", "", 0, 0, d.PropertyKind.kSingle⟩
        (String.mk ['a', Char.ofNat 0, 'b']) "T" "D" 4096 1
        d.PropertyKind.kSingle).GetPublicView.2.name
      ≠ String.mk ['a', Char.ofNat 0, 'b']
    ∧ (ObjectProperty.ctor ⟨"", "", "", 0, 0, d.PropertyKind.kSingle⟩
        (String.mk ['a', Char.ofNat 0, 'b']) "T" "D" 4096 1
        d.PropertyKind.kSingle).GetPublicView.2
      = (ObjectProperty.ctor ⟨"", "", "", 0, 0, d.PropertyKind.kSingle⟩
        (String.mk ['a', Char.ofNat 0, 'c']) "T" "D" 4096 1
        d.PropertyKind.kSingle).GetPublicView.2
    ∧ String.mk ['a', Char.ofNat 0, 'b'] ≠ String.mk ['a', Char.ofNat 0, 'c'] :=
  ⟨by decide, by decide, by decide, by decide⟩

/-- C6 (amended): for every verdict type and every verdict value, every brief
and type and every property list, the constructor returns a result and
`GetPublicView` on it yields a view whose `type_check_result` is the verdict
passed and whose `brief` and `type` are the strings passed as C strings (cut
at their first NUL), hence exactly the strings passed when these hold no NUL;
the strings, the count and the child views are the same for any two
verdicts. -/
theorem C6_verdict_does_not_gate {TypeCheckResult : Type} (this : uintptr_t)
    (u : ObjectPropertiesResultExtended TypeCheckResult)
    (tcr tcr' : TypeCheckResult) (brief type : String)
    (ps : List ObjectProperty) :
    (ObjectPropertiesResult.GetPublicView this
        (ObjectPropertiesResult.ctor u tcr brief type ps)).2.type_check_result
      = tcr
    ∧ (ObjectPropertiesResult.GetPublicView this
        (ObjectPropertiesResult.ctor u tcr brief type ps)).2.brief
      = c_str brief
    ∧ (ObjectPropertiesResult.GetPublicView this
        (ObjectPropertiesResult.ctor u tcr brief type ps)).2.type
      = c_str type
    ∧ (has_NUL brief = false →
        (ObjectPropertiesResult.GetPublicView this
          (ObjectPropertiesResult.ctor u tcr brief type ps)).2.brief = brief)
    ∧ (has_NUL type = false →
        (ObjectPropertiesResult.GetPublicView this
          (ObjectPropertiesResult.ctor u tcr brief type ps)).2.type = type)
    ∧ (ObjectPropertiesResult.GetPublicView this
        (ObjectPropertiesResult.ctor u tcr brief type ps)).2.num_properties
      = ps.length
    ∧ (ObjectPropertiesResult.GetPublicView this
        (ObjectPropertiesResult.ctor u tcr brief type ps)).2.properties
      = ps.map (fun p => p.GetPublicView.2)
    ∧ (ObjectPropertiesResult.GetPublicView this
        (ObjectPropertiesResult.ctor u tcr brief type ps)).2
      = { (ObjectPropertiesResult.GetPublicView this
            (ObjectPropertiesResult.ctor u tcr' brief type ps)).2 with
          type_check_result := tcr } := by
  rw [ObjectPropertiesResult.GetPublicView_snd,
    ObjectPropertiesResult.GetPublicView_snd]
  refine ⟨rfl, rfl, rfl, fun hb => ?_, fun ht => ?_, ?_, ?_, ?_⟩
  · exact c_str_of_has_NUL_eq_false brief hb
  · exact c_str_of_has_NUL_eq_false type ht
  · simp [ObjectPropertiesResult.ctor]
  · simp [ObjectPropertiesResult.ctor]
  · simp [ObjectPropertiesResult.ctor]

/-- Witness of C6 at a result with a NUL-free brief and type and no
properties, the verdict read as its numeric code. -/
theorem C6_verdict_does_not_gate_witness :
    (has_NUL "JSObject" = false ∧ has_NUL "v8::internal::JSObject" = false)
    ∧ (ObjectPropertiesResult.GetPublicView 4096
        (ObjectPropertiesResult.ctor
          { type_check_result := 0, brief := "", type := "",
            num_properties := 0, properties := [], base := 0 }
          (3 : Nat) "JSObject" "v8::internal::JSObject" [])).2.brief
      = "JSObject"
    ∧ (ObjectPropertiesResult.GetPublicView 4096
        (ObjectPropertiesResult.ctor
          { type_check_result := 0, brief := "", type := "",
            num_properties := 0, properties := [], base := 0 }
          (3 : Nat) "JSObject" "v8::internal::JSObject" [])).2.type
      = "v8::internal::JSObject" :=
  ⟨⟨by decide, by decide⟩,
   (C6_verdict_does_not_gate 4096
      { type_check_result := 0, brief := "", type := "",
        num_properties := 0, properties := [], base := 0 }
      (3 : Nat) 5 "JSObject" "v8::internal::JSObject" []).2.2.2.1 (by decide),
   (C6_verdict_does_not_gate 4096
      { type_check_result := 0, brief := "", type := "",
        num_properties := 0, properties := [], base := 0 }
      (3 : Nat) 5 "JSObject" "v8::internal::JSObject" []).2.2.2.2.1
      (by decide)⟩

/-- Counterexample to C6 as stated: with the brief `a NUL b` passed to the
constructor the view shows the brief `a`, not the value passed. -/
theorem C6_counterexample_embedded_NUL :
    (ObjectPropertiesResult.GetPublicView 4096
        (ObjectPropertiesResult.ctor
          { type_check_result := 0, brief := "", type := "",
            num_properties := 0, properties := [], base := 0 }
          (3 : Nat) (String.mk ['a', Char.ofNat 0, 'b']) "T" [])).2.brief = "a"
    ∧ (ObjectPropertiesResult.GetPublicView 4096
        (ObjectPropertiesResult.ctor
          { type_check_result := 0, brief := "", type := "",
            num_properties := 0, properties := [], base := 0 }
          (3 : Nat) (String.mk ['a', Char.ofNat 0, 'b']) "T" [])).2.brief
      ≠ String.mk ['a', Char.ofNat 0, 'b'] :=
  ⟨by decide, by decide⟩

/-- C7: `GetPublicView` rebuilds the child-view array on every call.  For any
contents `raw` of the cached array `properties_raw_` before the call, the
array after the call is the sequence of views of the owned properties, has
`properties_.size()` entries, and the object and the view after the call are
the ones obtained from an empty cached array; the same holds after any number
`k` of earlier calls. -/
theorem C7_GetPublicView_rebuilds {TypeCheckResult : Type} (this : uintptr_t)
    (r : ObjectPropertiesResult TypeCheckResult) (raw : List d.ObjectProperty)
    (k : Nat) :
    (ObjectPropertiesResult.GetPublicView this
        { r with properties_raw_ := raw }).1.properties_raw_
      = r.properties_.map (fun p => p.GetPublicView.2)
    ∧ (ObjectPropertiesResult.GetPublicView this
        { r with properties_raw_ := raw }).1.properties_raw_.length
      = r.properties_.length
    ∧ (ObjectPropertiesResult.GetPublicView this
        { r with properties_raw_ := raw }).2.properties
      = r.properties_.map (fun p => p.GetPublicView.2)
    ∧ ObjectPropertiesResult.GetPublicView this { r with properties_raw_ := raw }
      = ObjectPropertiesResult.GetPublicView this { r with properties_raw_ := [] }
    ∧ (ObjectPropertiesResult.GetPublicView this
        ((fun s => (ObjectPropertiesResult.GetPublicView this s).1)^[k]
          r)).1.properties_raw_
      = r.properties_.map (fun p => p.GetPublicView.2)
    ∧ (ObjectPropertiesResult.GetPublicView this
        ((fun s => (ObjectPropertiesResult.GetPublicView this s).1)^[k]
          r)).1.properties_raw_.length
      = r.properties_.length := by
  rw [ObjectPropertiesResult.GetPublicView_iterate]
  refine ⟨?_, ?_, ?_, ?_, ?_, ?_⟩
  · rw [ObjectPropertiesResult.GetPublicView_fst]
  · rw [ObjectPropertiesResult.GetPublicView_fst]
    simp
  · rw [ObjectPropertiesResult.GetPublicView_snd]
  · apply Prod.ext
    · rw [ObjectPropertiesResult.GetPublicView_fst,
        ObjectPropertiesResult.GetPublicView_fst,
        ObjectPropertiesResult.GetPublicView_snd,
        ObjectPropertiesResult.GetPublicView_snd]
    · rw [ObjectPropertiesResult.GetPublicView_snd,
        ObjectPropertiesResult.GetPublicView_snd]
  · rw [ObjectPropertiesResult.GetPublicView_fst]
  · rw [ObjectPropertiesResult.GetPublicView_fst]
    simp

/-- C8: `ObjectProperty::GetPublicView` is deterministic and idempotent.  After
any number `n` of earlier calls the next call returns the view the first call
returns, a call on the object left by a call changes nothing more, and the six
owned members (name, type, decompressed type, address, num_values, kind) after
`n` calls are the ones before. -/
theorem C8_ObjectProperty_GetPublicView_idempotent (p : ObjectProperty)
    (n : Nat) :
    ((fun q => (ObjectProperty.GetPublicView q).1)^[n] p).GetPublicView.2
      = p.GetPublicView.2
    ∧ (p.GetPublicView.1).GetPublicView = p.GetPublicView
    ∧ ((fun q => (ObjectProperty.GetPublicView q).1)^[n] p).name_ = p.name_
    ∧ ((fun q => (ObjectProperty.GetPublicView q).1)^[n] p).type_ = p.type_
    ∧ ((fun q => (ObjectProperty.GetPublicView q).1)^[n] p).decompressed_type_
      = p.decompressed_type_
    ∧ ((fun q => (ObjectProperty.GetPublicView q).1)^[n] p).address_
      = p.address_
    ∧ ((fun q => (ObjectProperty.GetPublicView q).1)^[n] p).num_values_
      = p.num_values_
    ∧ ((fun q => (ObjectProperty.GetPublicView q).1)^[n] p).kind_ = p.kind_ := by
  refine ⟨?_, rfl, ObjectProperty.owned_after_calls p n⟩
  rw [ObjectProperty.GetPublicView_after_calls]

/-- C9: an `ObjectProperty` constructed from name, declared type, decompressed
type and address only has `num_values_ = 1` and `kind_ = kSingle`, and its
public view reports `num_values = 1` and `kind = kSingle`. -/
theorem C9_ObjectProperty_defaults (u : d.ObjectProperty)
    (name type decompressed_type : String) (address : uintptr_t) :
    (ObjectProperty.ctor u name type decompressed_type address).num_values_ = 1
    ∧ (ObjectProperty.ctor u name type decompressed_type address).kind_
      = d.PropertyKind.kSingle
    ∧ (ObjectProperty.ctor u name type decompressed_type
        address).GetPublicView.2.num_values = 1
    ∧ (ObjectProperty.ctor u name type decompressed_type
        address).GetPublicView.2.kind = d.PropertyKind.kSingle :=
  ⟨rfl, rfl, rfl, rfl⟩

/-- C10: `GetArrayKind` is a total function of the outcome of the array-length
read: for the successful outcome it returns the precise-length array kind, for
every other outcome it returns the unknown-length array kind, and it never
returns the single-scalar kind. -/
theorem C10_GetArrayKind_total :
    GetArrayKind d.MemoryAccessResult.kOk = d.PropertyKind.kArrayOfKnownSize
    ∧ (∀ m : d.MemoryAccessResult, m ≠ d.MemoryAccessResult.kOk →
        GetArrayKind m = d.PropertyKind.kArrayOfUnknownSize)
    ∧ (∀ m : d.MemoryAccessResult, GetArrayKind m ≠ d.PropertyKind.kSingle) := by
  refine ⟨rfl, ?_, ?_⟩
  · intro m hm
    cases m <;> first | rfl | exact absurd rfl hm
  · intro m
    cases m <;> simp [GetArrayKind]

/-- Witness of C10 at the failure outcome `kUnavailable`. -/
theorem C10_GetArrayKind_total_witness :
    d.MemoryAccessResult.kUnavailable ≠ d.MemoryAccessResult.kOk
    ∧ GetArrayKind d.MemoryAccessResult.kUnavailable
      = d.PropertyKind.kArrayOfUnknownSize :=
  ⟨by decide, C10_GetArrayKind_total.2.1 d.MemoryAccessResult.kUnavailable
    (by decide)⟩

/-- C11: for every uncompressed address `base` and every address `a` in the
region of `base` (same bits above the low `region_bits`), decompressing the
compressed form of `a` with `base` as the hint returns `a`; the result has the
bits of the compressed address below `region_bits` and the bits of `base` from
`region_bits` upwards. -/
theorem C11_Decompress_roundtrip (region_bits : Nat) (base a : uintptr_t)
    (h : a / 2 ^ region_bits = base / 2 ^ region_bits) :
    Decompress region_bits (Compress region_bits a) base = a
    ∧ (∀ i : Nat,
        (Decompress region_bits (Compress region_bits a) base).testBit i
          = if i < region_bits then (Compress region_bits a).testBit i
            else base.testBit i)
    ∧ Decompress region_bits (Compress region_bits a) base
      = base / 2 ^ region_bits * 2 ^ region_bits + Compress region_bits a := by
  have hadd : Decompress region_bits (Compress region_bits a) base
      = base / 2 ^ region_bits * 2 ^ region_bits + Compress region_bits a := by
    rw [Decompress_eq_add, Compress, Nat.mod_mod]
  refine ⟨?_, fun i => Decompress_testBit region_bits _ base i, hadd⟩
  rw [hadd, Compress, ← h, Nat.mul_comm]
  exact Nat.div_add_mod a (2 ^ region_bits)

/-- Witness of C11 with a region of 32 bits, the hint `0x123400001000` and
the address `0x123400002008` of the same region. -/
theorem C11_Decompress_roundtrip_witness :
    (20014547607560 : uintptr_t) / 2 ^ 32 = 20014547603456 / 2 ^ 32
    ∧ Decompress 32 (Compress 32 20014547607560) 20014547603456
      = 20014547607560 :=
  ⟨by decide,
   (C11_Decompress_roundtrip 32 20014547603456 20014547607560 (by decide)).1⟩

/-- C12 (amended): the flat view is regenerated from the owned data on demand.
For every result with brief `b` and every prefix `p` (a C string, so without
NUL), `GetPublicView` called after `Prepend(p)` yields a view whose brief is
`p ++ b` as a C string: `p` followed by the brief the earlier view showed,
which is `p ++ b` itself when `b` holds no NUL.  Its `type_check_result`,
`type`, `num_properties` and sequence of child property views are those of
the view `GetPublicView` yielded before the `Prepend`. -/
theorem C12_GetPublicView_after_Prepend {TypeCheckResult : Type}
    (this : uintptr_t) (r : ObjectPropertiesResult TypeCheckResult)
    (p : String) :
    (ObjectPropertiesResult.GetPublicView this
        ((ObjectPropertiesResult.GetPublicView this r).1.Prepend p)).2.brief
      = c_str (p ++ r.brief_)
    ∧ (has_NUL p = false →
        (ObjectPropertiesResult.GetPublicView this
          ((ObjectPropertiesResult.GetPublicView this r).1.Prepend p)).2.brief
        = p ++ (ObjectPropertiesResult.GetPublicView this r).2.brief)
    ∧ (has_NUL p = false → has_NUL r.brief_ = false →
        (ObjectPropertiesResult.GetPublicView this
          ((ObjectPropertiesResult.GetPublicView this r).1.Prepend p)).2.brief
        = p ++ r.brief_)
    ∧ (ObjectPropertiesResult.GetPublicView this
        ((ObjectPropertiesResult.GetPublicView this r).1.Prepend
          p)).2.type_check_result
      = (ObjectPropertiesResult.GetPublicView this r).2.type_check_result
    ∧ (ObjectPropertiesResult.GetPublicView this
        ((ObjectPropertiesResult.GetPublicView this r).1.Prepend p)).2.type
      = (ObjectPropertiesResult.GetPublicView this r).2.type
    ∧ (ObjectPropertiesResult.GetPublicView this
        ((ObjectPropertiesResult.GetPublicView this r).1.Prepend
          p)).2.num_properties
      = (ObjectPropertiesResult.GetPublicView this r).2.num_properties
    ∧ (ObjectPropertiesResult.GetPublicView this
        ((ObjectPropertiesResult.GetPublicView this r).1.Prepend
          p)).2.properties
      = (ObjectPropertiesResult.GetPublicView this r).2.properties := by
  rw [ObjectPropertiesResult.GetPublicView_snd this
      ((ObjectPropertiesResult.GetPublicView this r).1.Prepend p)]
  rw [ObjectPropertiesResult.GetPublicView_fst this r,
    ObjectPropertiesResult.GetPublicView_snd this r]
  refine ⟨rfl, fun hp => ?_, fun hp hb => ?_, rfl, rfl, ?_, ?_⟩
  · exact c_str_append p r.brief_ hp
  · show c_str (p ++ r.brief_) = p ++ r.brief_
    rw [c_str_append p r.brief_ hp, c_str_of_has_NUL_eq_false r.brief_ hb]
  · simp [ObjectPropertiesResult.Prepend]
  · simp [ObjectPropertiesResult.Prepend, Function.comp_def,
      ObjectProperty.GetPublicView_again]

/-- Witness of C12 at the brief `JSObject` and the prefix `weak ref to `, the
verdict read as its numeric code. -/
theorem C12_GetPublicView_after_Prepend_witness :
    (has_NUL "weak ref to " = false ∧ has_NUL "JSObject" = false)
    ∧ (ObjectPropertiesResult.GetPublicView 4096
        ((ObjectPropertiesResult.GetPublicView 4096
          (ObjectPropertiesResult.ctor
            { type_check_result := 0, brief := "", type := "",
              num_properties := 0, properties := [], base := 0 }
            (3 : Nat) "JSObject" "v8::internal::JSObject" [])).1.Prepend
          "weak ref to ")).2.brief
      = "weak ref to " ++ (ObjectPropertiesResult.GetPublicView 4096
          (ObjectPropertiesResult.ctor
            { type_check_result := 0, brief := "", type := "",
              num_properties := 0, properties := [], base := 0 }
            (3 : Nat) "JSObject" "v8::internal::JSObject" [])).2.brief
    ∧ (ObjectPropertiesResult.GetPublicView 4096
        ((ObjectPropertiesResult.GetPublicView 4096
          (ObjectPropertiesResult.ctor
            { type_check_result := 0, brief := "", type := "",
              num_properties := 0, properties := [], base := 0 }
            (3 : Nat) "JSObject" "v8::internal::JSObject" [])).1.Prepend
          "weak ref to ")).2.brief
      = "weak ref to " ++ "JSObject" :=
  ⟨⟨by decide, by decide⟩,
   (C12_GetPublicView_after_Prepend 4096
      (ObjectPropertiesResult.ctor
        { type_check_result := 0, brief := "", type := "",
          num_properties := 0, properties := [], base := 0 }
        (3 : Nat) "JSObject" "v8::internal::JSObject" [])
      "weak ref to ").2.1 (by decide),
   (C12_GetPublicView_after_Prepend 4096
      (ObjectPropertiesResult.ctor
        { type_check_result := 0, brief := "", type := "",
          num_properties := 0, properties := [], base := 0 }
        (3 : Nat) "JSObject" "v8::internal::JSObject" [])
      "weak ref to ").2.2.1 (by decide) (by decide)⟩

/-- Counterexample to C12 as stated: with the brief `a NUL b` and the prefix
`x`, the view taken after `Prepend` shows the brief `xa`, not the prefix
followed by the brief. -/
theorem C12_counterexample_embedded_NUL :
    (ObjectPropertiesResult.GetPublicView 4096
        ((ObjectPropertiesResult.GetPublicView 4096
          (ObjectPropertiesResult.ctor
            { type_check_result := 0, brief := "", type := "",
              num_properties := 0, properties := [], base := 0 }
            (3 : Nat) (String.mk ['a', Char.ofNat 0, 'b']) "T" [])).1.Prepend
          "x")).2.brief = "xa"
    ∧ (ObjectPropertiesResult.GetPublicView 4096
        ((ObjectPropertiesResult.GetPublicView 4096
          (ObjectPropertiesResult.ctor
            { type_check_result := 0, brief := "", type := "",
              num_properties := 0, properties := [], base := 0 }
            (3 : Nat) (String.mk ['a', Char.ofNat 0, 'b']) "T" [])).1.Prepend
          "x")).2.brief
      ≠ "x" ++ String.mk ['a', Char.ofNat 0, 'b'] :=
  ⟨by decide, by decide⟩

/-- C13: every view returned by `GetPublicView` on the result at address `this`
carries `base = this`, so two views have the same `base` exactly when they
come from the same address.  The object found at that address after the call
holds the view as its `public_view_`, projects to that same view, and owns
the property list the view enumerates (count, order and contents, both as
recomputed views and as the cached views of the children). -/
theorem C13_base_back_reference {TypeCheckResult : Type}
    (this this' : uintptr_t)
    (r r' : ObjectPropertiesResult TypeCheckResult) :
    (ObjectPropertiesResult.GetPublicView this r).2.base = this
    ∧ ((ObjectPropertiesResult.GetPublicView this r).2.base
        = (ObjectPropertiesResult.GetPublicView this' r').2.base
      ↔ this = this')
    ∧ (ObjectPropertiesResult.GetPublicView this r).1.public_view_
      = (ObjectPropertiesResult.GetPublicView this r).2
    ∧ (ObjectPropertiesResult.GetPublicView
          (ObjectPropertiesResult.GetPublicView this r).2.base
          (ObjectPropertiesResult.GetPublicView this r).1).2
      = (ObjectPropertiesResult.GetPublicView this r).2
    ∧ (ObjectPropertiesResult.GetPublicView this r).2.num_properties
      = (ObjectPropertiesResult.GetPublicView this r).1.properties_.length
    ∧ (ObjectPropertiesResult.GetPublicView this r).2.properties
      = (ObjectPropertiesResult.GetPublicView this r).1.properties_.map
          (fun q => q.GetPublicView.2)
    ∧ (ObjectPropertiesResult.GetPublicView this r).2.properties
      = (ObjectPropertiesResult.GetPublicView this r).1.properties_.map
          (fun q => q.public_view_) := by
  have hb : ∀ (a : uintptr_t) (s : ObjectPropertiesResult TypeCheckResult),
      (ObjectPropertiesResult.GetPublicView a s).2.base = a := by
    intro a s
    rw [ObjectPropertiesResult.GetPublicView_snd]
  refine ⟨hb this r, ?_, ?_, ?_, ?_, ?_, ?_⟩
  · rw [hb this r, hb this' r']
  · rw [ObjectPropertiesResult.GetPublicView_fst]
  · rw [hb this r, ObjectPropertiesResult.GetPublicView_idem]
  · rw [ObjectPropertiesResult.GetPublicView_fst,
      ObjectPropertiesResult.GetPublicView_snd]
    simp
  · rw [ObjectPropertiesResult.GetPublicView_fst,
      ObjectPropertiesResult.GetPublicView_snd]
    simp [Function.comp_def, ObjectProperty.GetPublicView_again]
  · rw [ObjectPropertiesResult.GetPublicView_fst,
      ObjectPropertiesResult.GetPublicView_snd]
    simp [Function.comp_def, ObjectProperty.GetPublicView_fst_eq,
      ObjectProperty.GetPublicView_snd_eq_view]

/-- C14: `GetPublicView` on a result writes cached view state only.  After the
call `type_check_result_`, `brief_` and `type_` are as before, the property
list has the same length and, position by position, the same name, type,
decompressed type, address, num_values and kind; the object after the call is
the object before it with `public_view_`, `properties_raw_` and the
`public_view_` of each owned property replaced. -/
theorem C14_GetPublicView_frame {TypeCheckResult : Type} (this : uintptr_t)
    (r : ObjectPropertiesResult TypeCheckResult) :
    (ObjectPropertiesResult.GetPublicView this r).1.type_check_result_
      = r.type_check_result_
    ∧ (ObjectPropertiesResult.GetPublicView this r).1.brief_ = r.brief_
    ∧ (ObjectPropertiesResult.GetPublicView this r).1.type_ = r.type_
    ∧ (ObjectPropertiesResult.GetPublicView this r).1.properties_.length
      = r.properties_.length
    ∧ (ObjectPropertiesResult.GetPublicView this r).1.properties_.map
        (fun q => q.name_) = r.properties_.map (fun q => q.name_)
    ∧ (ObjectPropertiesResult.GetPublicView this r).1.properties_.map
        (fun q => q.type_) = r.properties_.map (fun q => q.type_)
    ∧ (ObjectPropertiesResult.GetPublicView this r).1.properties_.map
        (fun q => q.decompressed_type_)
      = r.properties_.map (fun q => q.decompressed_type_)
    ∧ (ObjectPropertiesResult.GetPublicView this r).1.properties_.map
        (fun q => q.address_) = r.properties_.map (fun q => q.address_)
    ∧ (ObjectPropertiesResult.GetPublicView this r).1.properties_.map
        (fun q => q.num_values_) = r.properties_.map (fun q => q.num_values_)
    ∧ (ObjectPropertiesResult.GetPublicView this r).1.properties_.map
        (fun q => q.kind_) = r.properties_.map (fun q => q.kind_)
    ∧ (ObjectPropertiesResult.GetPublicView this r).1
      = { r with
          public_view_ :=
            (ObjectPropertiesResult.GetPublicView this r).1.public_view_
          properties_raw_ :=
            (ObjectPropertiesResult.GetPublicView this r).1.properties_raw_
          properties_ := r.properties_.map
            (fun q => { q with public_view_ := q.GetPublicView.1.public_view_ }) } := by
  rw [ObjectPropertiesResult.GetPublicView_fst]
  simp [Function.comp_def, ObjectProperty.GetPublicView_fst_eq]

/-- C15: `Prepend` composes by concatenation.  `Prepend(p)` followed by
`Prepend(q)` leaves the result in the state of a single `Prepend(q ++ p)`,
with brief `q ++ p ++ b`, and `Prepend` of the empty string changes nothing. -/
theorem C15_Prepend_compose {TypeCheckResult : Type}
    (r : ObjectPropertiesResult TypeCheckResult) (p q : String) :
    (r.Prepend p).Prepend q = r.Prepend (q ++ p)
    ∧ ((r.Prepend p).Prepend q).brief_ = q ++ p ++ r.brief_
    ∧ r.Prepend "" = r := by
  refine ⟨?_, ?_, ?_⟩
  · simp [ObjectPropertiesResult.Prepend, String.append_assoc]
  · simp [ObjectPropertiesResult.Prepend, String.append_assoc]
  · simp [ObjectPropertiesResult.Prepend, String.empty_append]

end v8_debug_helper_internal
